import Mathlib

/-!
# DNS Manager front end (`frontend/src/App.jsx`)

A shallow embedding of the `App` component: its five `useState` cells, the three
asynchronous functions `fetchRecords`, `addRecord`, `deleteRecord`, and the inline
click and change handlers of the view.

Modelling conventions.

* The component state is the record `App`.  Besides the five state cells it carries
  `sent`, the list of calls made to `fetch`, oldest first; this is the only
  observable effect of the component outside its own state.
* An `async` function is cut at its `await`.  The part before the `await` is the
  `...Begin` definition, the part after it is the `...Resume` definition, which takes
  the outcome of `await fetch(...)` followed by `await response.json()` as a `Reply`.
  The definition without suffix runs both parts with nothing in between.
* `try`, `catch` and `finally` are modelled with `Completion`: a block ends normally
  or with an exception, and state updates made before the exception are kept.
* The response body is typed as the API contract gives it: a boolean `success`, an
  optional array `data`, an optional string `message`.
* `console.error` writes to the console only and is left out.
* JavaScript strings are modelled by `String`.  All code points removed by
  `String.prototype.trim` lie in the Basic Multilingual Plane, so trimming code
  points and trimming UTF-16 code units agree.
-/

namespace DnsManager

/-! ## Data -/

/-- One DNS A-record, as listed by the API and as sent in the create payload. -/
structure Record where
  domain : String
  ip : String
  ttl : Int
deriving DecidableEq, Repr

/-- Value of the `newRecord` state cell, bound to the two inputs of the add form. -/
structure DraftRecord where
  domain : String
  ip : String
deriving DecidableEq, Repr

/-- A call to `fetch`. -/
inductive Request where
  /-- Line 18: `fetch(API_BASE/records)`, a GET. -/
  | list
  /-- Line 51: `fetch(API_BASE/records)` with method POST and the body
  `JSON.stringify(payload)`. -/
  | create (payload : Record)
  /-- Line 82: `fetch(API_BASE/records/encodeURIComponent(domain))` with method
  DELETE. -/
  | delete (domain : String)
deriving DecidableEq, Repr

/-- Parsed JSON body of a response, read the way the component reads it.
`success` is the truthiness of the property `success`; `data` is the array in the
property `data`, if there is one; `message` is the string in the property
`message`, if there is one.  A body that is not an object and not `null` has
none of the three properties and reads as a false `success` without message. -/
structure ApiBody where
  success : Bool
  data : Option (List Record)
  message : Option String
deriving DecidableEq, Repr

/-- Outcome of `await fetch(...)` followed by `await response.json()`. -/
inductive Reply where
  /-- An exception is raised inside `try`: `fetch` rejects (network error),
  `response.json()` rejects (the body is not JSON), or the body is `null`, whose
  property `success` cannot be read. -/
  | threw
  /-- Both awaits resolve and `data` is the parsed body. -/
  | json (data : ApiBody)
deriving DecidableEq, Repr

/-- The component state: the five `useState` cells and the log of `fetch` calls. -/
structure App where
  records : List Record
  loading : Bool
  error : String
  showAddForm : Bool
  newRecord : DraftRecord
  sent : List Request
deriving DecidableEq, Repr

/-- Initial values given to `useState`; nothing has been fetched yet. -/
def App.init : App :=
  { records := [], loading := true, error := "", showAddForm := false,
    newRecord := { domain := "", ip := "" }, sent := [] }

/-! ## JavaScript primitives used by the component -/

/-- WhiteSpace and LineTerminator code points of ECMAScript, which `trim` removes:
TAB, LF, VT, FF, CR, SPACE, NBSP, the other members of category Zs, LS, PS, BOM. -/
def isJsWhiteSpace (c : Char) : Bool :=
  let n := c.toNat
  n == 0x09 || n == 0x0A || n == 0x0B || n == 0x0C || n == 0x0D || n == 0x20 ||
  n == 0xA0 || n == 0x1680 || (decide (0x2000 ≤ n) && decide (n ≤ 0x200A)) ||
  n == 0x2028 || n == 0x2029 || n == 0x202F || n == 0x205F || n == 0x3000 ||
  n == 0xFEFF

/-- `String.prototype.trim`: white space removed from both ends. -/
def trim (s : String) : String :=
  String.mk ((s.data.dropWhile isJsWhiteSpace).reverse.dropWhile isJsWhiteSpace).reverse

/-- `data.message || fallback`: the message unless it is undefined or the empty
string, which are both falsy. -/
def messageOr (message : Option String) (fallback : String) : String :=
  match message with
  | some m => if m = "" then fallback else m
  | none => fallback

/-- `data.data || []`: an array is truthy even when empty, undefined is falsy. -/
def dataOr (data : Option (List Record)) : List Record :=
  match data with
  | some rs => rs
  | none => []

/-! ## State setters and `fetch` -/

def setRecords (v : List Record) (s : App) : App := { s with records := v }

def setLoading (v : Bool) (s : App) : App := { s with loading := v }

def setError (v : String) (s : App) : App := { s with error := v }

def setShowAddForm (v : Bool) (s : App) : App := { s with showAddForm := v }

def setNewRecord (v : DraftRecord) (s : App) : App := { s with newRecord := v }

/-- Calling `fetch` issues the request; the promise it returns is awaited later. -/
def fetch (req : Request) (s : App) : App := { s with sent := s.sent ++ [req] }

/-! ## Control flow: exceptions and suspension -/

/-- How a block of statements ends. -/
inductive Completion where
  | normal (s : App)
  | thrown (s : App)
deriving DecidableEq, Repr

/-- State in which a block ended, however it ended. -/
def Completion.state : Completion → App
  | .normal s => s
  | .thrown s => s

/-- Whether an exception leaves the block. -/
def Completion.escapes : Completion → Bool
  | .normal _ => false
  | .thrown _ => true

/-- Block `try body catch handler`. -/
def tryCatch (body : Completion) (handler : App → Completion) : Completion :=
  match body with
  | .normal s => .normal s
  | .thrown s => handler s

/-- Block `try ... finally finalizer`, for a finalizer that cannot throw. -/
def tryFinally (body : Completion) (finalizer : App → App) : Completion :=
  match body with
  | .normal s => .normal (finalizer s)
  | .thrown s => .thrown (finalizer s)

/-- An `async` function run up to its first `await`: it has returned, or it is
suspended on the request it has just issued. -/
inductive Started where
  | returned (s : App)
  | awaiting (s : App)
deriving DecidableEq, Repr

def Started.state : Started → App
  | .returned s => s
  | .awaiting s => s

/-! ## `fetchRecords` -/

/-- Lines 16-18: enter `try`, `setLoading(true)`, call `fetch`. -/
def fetchRecordsBegin (s : App) : App :=
  fetch .list (setLoading true s)

/-- Lines 18-32: the rest of `try`, then `catch` and `finally`. -/
def fetchRecordsResume (r : Reply) (s : App) : Completion :=
  tryFinally
    (tryCatch
      (match r with
        | .threw => .thrown s
        | .json data =>
          if data.success then
            .normal (setError "" (setRecords (dataOr data.data) s))
          else
            .normal (setError (messageOr data.message "Failed to fetch records") s))
      (fun s => .normal (setError "Failed to connect to API server" s)))
    (setLoading false)

/-- A whole call of `fetchRecords` whose request is answered by `r`. -/
def fetchRecords (r : Reply) (s : App) : Completion :=
  fetchRecordsResume r (fetchRecordsBegin s)

/-! ## `addRecord` -/

/-- Lines 45-49: the payload built from the draft. -/
def payload (d : DraftRecord) : Record :=
  { domain := trim d.domain, ip := trim d.ip, ttl := -1 }

/-- Lines 37-57: the guard on the draft, then the payload and the call of `fetch`. -/
def addRecordBegin (s : App) : Started :=
  if s.newRecord.domain = "" ∨ s.newRecord.ip = "" then
    .returned (setError "Domain and IP are required" s)
  else
    .awaiting (fetch (.create (payload s.newRecord)) s)

/-- Lines 59-72: the rest of `try`, then `catch`.  The call `fetchRecords()` on
line 64 is not awaited, so only its first part runs here. -/
def addRecordResume (r : Reply) (s : App) : Completion :=
  tryCatch
    (match r with
      | .threw => .thrown s
      | .json data =>
        if data.success then
          .normal (setError "" (fetchRecordsBegin
            (setShowAddForm false (setNewRecord { domain := "", ip := "" } s))))
        else
          .normal (setError (messageOr data.message "Failed to add record") s))
    (fun s => .normal (setError "Failed to add record" s))

/-- A whole call of `addRecord` whose request, if one is made, is answered by `r`. -/
def addRecord (r : Reply) (s : App) : Completion :=
  match addRecordBegin s with
  | .returned s1 => .normal s1
  | .awaiting s1 => addRecordResume r s1

/-! ## `deleteRecord` -/

/-- Lines 77-84: the `confirm` dialog, whose answer is `confirmed`, then `fetch`. -/
def deleteRecordBegin (domain : String) (confirmed : Bool) (s : App) : Started :=
  if !confirmed then
    .returned s
  else
    .awaiting (fetch (.delete domain) s)

/-- Lines 86-97: the rest of `try`, then `catch`. -/
def deleteRecordResume (r : Reply) (s : App) : Completion :=
  tryCatch
    (match r with
      | .threw => .thrown s
      | .json data =>
        if data.success then
          .normal (setError "" (fetchRecordsBegin s))
        else
          .normal (setError (messageOr data.message "Failed to delete record") s))
    (fun s => .normal (setError "Failed to delete record" s))

/-- A whole call of `deleteRecord` whose request, if one is made, is answered by `r`. -/
def deleteRecord (domain : String) (confirmed : Bool) (r : Reply) (s : App) : Completion :=
  match deleteRecordBegin domain confirmed s with
  | .returned s1 => .normal s1
  | .awaiting s1 => deleteRecordResume r s1

/-! ## Inline handlers of the view -/

/-- Line 127, the close button of the alert: `setError('')`. -/
def dismissError (s : App) : App := setError "" s

/-- Line 147, the toolbar button: `setShowAddForm(!showAddForm)`. -/
def toggleAddForm (s : App) : App := setShowAddForm (!s.showAddForm) s

/-- Line 194, the Cancel button of the form: `setShowAddForm(false)`. -/
def cancelAddForm (s : App) : App := setShowAddForm false s

/-- Line 216, the button of the empty list: `setShowAddForm(true)`. -/
def openAddForm (s : App) : App := setShowAddForm true s

/-- Line 171, the domain input: `setNewRecord(domain: e.target.value)`. -/
def changeDomain (v : String) (s : App) : App :=
  setNewRecord { s.newRecord with domain := v } s

/-- Line 182, the address input: `setNewRecord(ip: e.target.value)`. -/
def changeIp (v : String) (s : App) : App :=
  setNewRecord { s.newRecord with ip := v } s

/-! ## The component as a transition system -/

/-- What can happen to the mounted component: an action of the operator, or the
arrival of the answer to a request. -/
inductive Event where
  /-- Call of `fetchRecords`: the mount effect on line 101, or the Refresh button. -/
  | load
  /-- Submission of the form: `addRecord` is called. -/
  | submit
  /-- Click on a Delete button: `deleteRecord(domain)`, with the answer given to
  `confirm`. -/
  | remove (domain : String) (confirmed : Bool)
  /-- Click on the close button of the alert. -/
  | dismissError
  /-- Click on the toolbar button labelled Add Record or Cancel. -/
  | toggleForm
  /-- Click on the Cancel button of the form. -/
  | cancelForm
  /-- Click on the Add First Record button of the empty list. -/
  | openForm
  /-- Input in the domain field. -/
  | changeDomain (v : String)
  /-- Input in the address field. -/
  | changeIp (v : String)
  /-- Arrival of the answer `r` to the request `req`: the function awaiting it
  goes on. -/
  | response (req : Request) (r : Reply)
deriving DecidableEq, Repr

/-- The component together with the requests that have been answered so far. -/
structure World where
  app : App
  answered : List Request
deriving DecidableEq, Repr

def World.init : World := { app := App.init, answered := [] }

/-- Requests issued and not yet answered. -/
def World.pending (w : World) : List Request := w.app.sent.diff w.answered

/-- The function suspended on `req` goes on with the reply `r`. -/
def resume (req : Request) (r : Reply) (s : App) : Completion :=
  match req with
  | .list => fetchRecordsResume r s
  | .create _ => addRecordResume r s
  | .delete _ => deleteRecordResume r s

/-- One event.  Actions of the operator are possible in every state; an answer is
possible only to a pending request.  Answers may arrive in any order. -/
def step (w : World) (e : Event) : Option World :=
  match e with
  | .load => some { w with app := fetchRecordsBegin w.app }
  | .submit => some { w with app := (addRecordBegin w.app).state }
  | .remove domain confirmed =>
    some { w with app := (deleteRecordBegin domain confirmed w.app).state }
  | .dismissError => some { w with app := dismissError w.app }
  | .toggleForm => some { w with app := toggleAddForm w.app }
  | .cancelForm => some { w with app := cancelAddForm w.app }
  | .openForm => some { w with app := openAddForm w.app }
  | .changeDomain v => some { w with app := changeDomain v w.app }
  | .changeIp v => some { w with app := changeIp v w.app }
  | .response req r =>
    if req ∈ w.pending then
      some { app := (resume req r w.app).state, answered := req :: w.answered }
    else
      none

/-- A sequence of events, oldest first. -/
def run (w : World) : List Event → Option World
  | [] => some w
  | e :: es => (step w e).bind (fun w1 => run w1 es)

/-- Payload of a successful list response: `data`, or the empty sequence when
`data` is absent.  Every other event gives `none`. -/
def listPayload (e : Event) : Option (List Record) :=
  match e with
  | .response .list (.json data) =>
    if data.success then some (data.data.getD []) else none
  | _ => none

/-- Payload of the most recent successful list response in a sequence of events. -/
def lastListPayload (evs : List Event) : Option (List Record) :=
  (evs.filterMap listPayload).getLast?

/-! ## Concrete inputs -/

/-- The record `a.local -> 10.0.0.1` with the no-expiration time to live. -/
def recordA : Record := { domain := "a.local", ip := "10.0.0.1", ttl := -1 }

/-- List response carrying the single record `recordA`. -/
def listOfA : ApiBody := { success := true, data := some [recordA], message := none }

/-- Response `success: true` without further properties. -/
def accepted : ApiBody := { success := true, data := none, message := none }

/-- Response `success: false, message: "not found"`. -/
def notFound : ApiBody := { success := false, data := none, message := some "not found" }

/-- Response `success: false, message: ""`: the message is present and empty. -/
def emptyMessage : ApiBody := { success := false, data := none, message := some "" }

/-- State after the first load has listed `recordA`. -/
def loadedA : App :=
  { records := [recordA], loading := false, error := "", showAddForm := false,
    newRecord := { domain := "", ip := "" }, sent := [.list] }

/-- The add form is open and holds the draft `b.local -> 10.0.0.2`, padded with
blanks. -/
def draftB : App :=
  { loadedA with showAddForm := true, newRecord := { domain := " b.local", ip := "10.0.0.2 " } }

/-- The add form is open; the domain typed is three spaces. -/
def blankDomain : App :=
  { loadedA with showAddForm := true, newRecord := { domain := "   ", ip := "10.0.0.1" } }

/-- A session: first load, then `b.local` is added and the refresh that follows
fails at the transport. -/
def session : List Event :=
  [.load, .response .list (.json listOfA), .toggleForm, .changeDomain "b.local",
   .changeIp "10.0.0.2", .submit,
   .response (.create { domain := "b.local", ip := "10.0.0.2", ttl := -1 }) (.json accepted),
   .response .list .threw]

/-- Where `session` ends. -/
def sessionEnd : World :=
  { app :=
      { records := [recordA], loading := false, error := "Failed to connect to API server",
        showAddForm := false, newRecord := { domain := "", ip := "" },
        sent := [.list, .create { domain := "b.local", ip := "10.0.0.2", ttl := -1 }, .list] },
    answered := [.list, .create { domain := "b.local", ip := "10.0.0.2", ttl := -1 }, .list] }

/-- The operator opens the form, types a domain and cancels with the form button. -/
def typeThenCancel : List Event := [.toggleForm, .changeDomain "x", .cancelForm]

/-- Where `typeThenCancel` ends: the form is closed and the draft still holds `x`. -/
def typeThenCancelEnd : World :=
  { app := { App.init with newRecord := { domain := "x", ip := "" } }, answered := [] }

/-! ## Trace lemmas -/

/-- The continuation of `fetchRecords` replaces `records` on a successful response
and keeps it otherwise. -/
theorem fetchRecordsResume_records (r : Reply) (s : App) :
    (fetchRecordsResume r s).state.records = (listPayload (.response .list r)).getD s.records := by
  rcases r with _ | ⟨⟨success, data, message⟩⟩
  · rfl
  · cases success
    · rfl
    · cases data <;> rfl

/-- The continuation of `addRecord` keeps `records`. -/
theorem addRecordResume_records (r : Reply) (s : App) :
    (addRecordResume r s).state.records = s.records := by
  rcases r with _ | ⟨⟨success, data, message⟩⟩
  · rfl
  · cases success <;> rfl

/-- The continuation of `deleteRecord` keeps `records`. -/
theorem deleteRecordResume_records (r : Reply) (s : App) :
    (deleteRecordResume r s).state.records = s.records := by
  rcases r with _ | ⟨⟨success, data, message⟩⟩
  · rfl
  · cases success <;> rfl

/-- One event changes `records` only when it is a successful list response, and
then to the payload of that response. -/
theorem step_records (w w1 : World) (e : Event) (h : step w e = some w1) :
    w1.app.records = (listPayload e).getD w.app.records := by
  cases e with
  | response req r =>
    simp only [step] at h
    split at h
    · simp only [Option.some.injEq] at h
      subst h
      cases req with
      | list => exact fetchRecordsResume_records r w.app
      | create p => exact addRecordResume_records r w.app
      | delete d => exact deleteRecordResume_records r w.app
    · simp at h
  | submit =>
    simp only [step, Option.some.injEq] at h
    subst h
    simp only [addRecordBegin, listPayload, Option.getD_none]
    split <;> rfl
  | remove domain confirmed =>
    simp only [step, Option.some.injEq] at h
    subst h
    cases confirmed <;> rfl
  | _ =>
    simp only [step, Option.some.injEq] at h
    subst h
    rfl

/-- After a sequence of events `records` is the payload of the most recent
successful list response in it, or what it was at the start. -/
theorem run_records (evs : List Event) (w0 w : World) (h : run w0 evs = some w) :
    w.app.records = (lastListPayload evs).getD w0.app.records := by
  induction evs generalizing w0 with
  | nil =>
    simp only [run, Option.some.injEq] at h
    subst h
    rfl
  | cons e es ih =>
    simp only [run] at h
    cases hs : step w0 e with
    | none => simp [hs] at h
    | some w1 =>
      simp only [hs, Option.some_bind] at h
      have h1 := step_records w0 w1 e hs
      have h2 := ih w1 h
      simp only [lastListPayload] at h2 ⊢
      cases hp : listPayload e with
      | none =>
        simp only [hp, Option.getD_none] at h1
        simp [List.filterMap_cons, hp, h2, h1]
      | some p =>
        simp only [hp, Option.getD_some] at h1
        simp only [List.filterMap_cons, hp, List.getLast?_cons, Option.getD_some]
        rw [h2, h1]

/-! ## `addRecord`: the guard on the draft -/

/-- C1, evaluated at a draft whose domain is three spaces.  The claim asks that a
draft whose domain is empty after trimming issues no create request and leaves an
error.  The guard of `addRecord` tests the untrimmed string, so this draft passes
it: a create request with the empty domain is sent, and once the server accepts it
`error` is the empty string. -/
theorem addRecord_blank_domain_is_sent :
    trim blankDomain.newRecord.domain = "" ∧
    addRecordBegin blankDomain =
      .awaiting { blankDomain with
        sent := [.list, .create { domain := "", ip := "10.0.0.1", ttl := -1 }] } ∧
    (addRecord (.json accepted) blankDomain).state.sent =
      [.list, .create { domain := "", ip := "10.0.0.1", ttl := -1 }, .list] ∧
    (addRecord (.json accepted) blankDomain).state.error = "" := by
  decide

/-! ## `records` mirrors the server -/

/-- C2: in every state reached from the initial state by a sequence of events,
`records` is the payload of the most recent successful list response of that
sequence, or the initial empty sequence when there is none; and an event that is
not a successful list response (a create, a remove, a dismissal, a form step, a
failed load) leaves `records` as it is. -/
theorem records_mirror_last_list_response (evs : List Event) (w : World)
    (h : run World.init evs = some w) :
    w.app.records = (lastListPayload evs).getD [] ∧
    ∀ (e : Event) (w1 : World), step w e = some w1 → listPayload e = none →
      w1.app.records = w.app.records := by
  refine ⟨run_records evs World.init w h, ?_⟩
  intro e w1 hs hn
  have h1 := step_records w w1 e hs
  rw [hn] at h1
  exact h1

/-- The session `session` ends with the record listed by its first load, although
a record was created and the refresh after it failed. -/
theorem records_mirror_last_list_response_witness :
    run World.init session = some sessionEnd ∧
    sessionEnd.app.records = (lastListPayload session).getD [] ∧
    sessionEnd.app.records = [recordA] :=
  ⟨by decide, (records_mirror_last_list_response session sessionEnd (by decide)).1, by decide⟩

/-! ## `fetchRecords` -/

/-- C3: when the list response has a true `success`, after `fetchRecords` the
state has `records` equal to the `data` of the response, or empty when `data` is
absent, `error` empty and `loading` false. -/
theorem fetchRecords_success (s : App) (data : ApiBody) (h : data.success = true) :
    (∀ rs, data.data = some rs → (fetchRecords (.json data) s).state.records = rs) ∧
    (data.data = none → (fetchRecords (.json data) s).state.records = []) ∧
    (fetchRecords (.json data) s).state.error = "" ∧
    (fetchRecords (.json data) s).state.loading = false ∧
    (fetchRecords (.json data) s).escapes = false := by
  obtain ⟨success, d, m⟩ := data
  simp only at h
  subst h
  refine ⟨?_, ?_, rfl, rfl, rfl⟩
  · intro rs hrs
    simp only at hrs
    subst hrs
    rfl
  · intro hd
    simp only at hd
    subst hd
    rfl

/-- The list response with the single record `a.local` gives exactly one record,
no error and no loading indicator. -/
theorem fetchRecords_success_witness :
    listOfA.success = true ∧
    (fetchRecords (.json listOfA) App.init).state.records = [recordA] ∧
    (fetchRecords (.json listOfA) App.init).state.records.length = 1 ∧
    (fetchRecords (.json listOfA) App.init).state.error = "" ∧
    (fetchRecords (.json listOfA) App.init).state.loading = false :=
  have h := fetchRecords_success App.init listOfA rfl
  ⟨rfl, h.1 [recordA] rfl, by rw [h.1 [recordA] rfl]; rfl, h.2.2.1, h.2.2.2.1⟩

/-! ## `addRecord`: an accepted create -/

/-- C4: a create whose draft has a non-empty domain and address and which the
server accepts sends exactly the body with the trimmed domain, the trimmed address
and `ttl` -1, then resets the draft, closes the add form and calls `fetchRecords`
once: the requests issued are the create followed by one list request.  A create
that does not succeed (stopped by the guard, refused by the server, or failed at
the transport) issues no list request. -/
theorem addRecord_accepted (s : App) (r : Reply) :
    (s.newRecord.domain ≠ "" → s.newRecord.ip ≠ "" →
      (∃ data, r = .json data ∧ data.success = true) →
        (addRecord r s).state.sent =
          s.sent ++ [.create { domain := trim s.newRecord.domain,
                               ip := trim s.newRecord.ip, ttl := -1 }, .list] ∧
        (addRecord r s).state.newRecord = { domain := "", ip := "" } ∧
        (addRecord r s).state.showAddForm = false) ∧
    (¬ (s.newRecord.domain ≠ "" ∧ s.newRecord.ip ≠ "" ∧
        ∃ data, r = .json data ∧ data.success = true) →
      (addRecord r s).state.sent.count .list = s.sent.count .list) := by
  constructor
  · rintro hd hi ⟨data, rfl, hs⟩
    obtain ⟨success, d, m⟩ := data
    simp only at hs
    subst hs
    simp [addRecord, addRecordBegin, hd, hi, addRecordResume, tryCatch, Completion.state,
      setError, fetchRecordsBegin, fetch, setLoading, setShowAddForm, setNewRecord, payload]
  · intro hn
    by_cases hg : s.newRecord.domain = "" ∨ s.newRecord.ip = ""
    · simp [addRecord, addRecordBegin, hg, Completion.state, setError]
    · have hd : s.newRecord.domain ≠ "" := fun h => hg (Or.inl h)
      have hi : s.newRecord.ip ≠ "" := fun h => hg (Or.inr h)
      rcases r with _ | ⟨⟨success, d, m⟩⟩
      · simp [addRecord, addRecordBegin, hd, hi, addRecordResume, tryCatch, Completion.state,
          setError, fetch, List.count_append]
      · cases success
        · simp [addRecord, addRecordBegin, hd, hi, addRecordResume, tryCatch,
            Completion.state, setError, fetch, List.count_append]
        · exact absurd ⟨hd, hi, _, rfl, rfl⟩ hn

/-- The draft `b.local -> 10.0.0.2`, typed with blanks around it, is sent trimmed
and followed by one list request; the same draft refused sends no list request
beyond the one of the first load. -/
theorem addRecord_accepted_witness :
    (addRecord (.json accepted) draftB).state.sent =
      [.list, .create { domain := "b.local", ip := "10.0.0.2", ttl := -1 }, .list] ∧
    (addRecord (.json accepted) draftB).state.newRecord = { domain := "", ip := "" } ∧
    (addRecord (.json accepted) draftB).state.showAddForm = false ∧
    (addRecord (.json notFound) draftB).state.sent.count .list = 1 :=
  have h := (addRecord_accepted draftB (.json accepted)).1 (by decide) (by decide)
    ⟨accepted, rfl, rfl⟩
  have h0 := (addRecord_accepted draftB (.json notFound)).2
    (by rintro ⟨_, _, data, hr, hs⟩; cases hr; exact absurd hs (by decide))
  ⟨h.1, h.2.1, h.2.2, h0⟩

/-! ## `fetchRecords`: failure -/

/-- C5 as stated fails when the response carries `success: false` and the message
is the empty string: the message is present, and `error` is not that message but
the fallback. -/
theorem fetchRecords_empty_message_gives_fallback :
    emptyMessage.success = false ∧ emptyMessage.message = some "" ∧
    (fetchRecords (.json emptyMessage) loadedA).state.error ≠ "" ∧
    (fetchRecords (.json emptyMessage) loadedA).state.error = "Failed to fetch records" := by
  decide

/-- C5, amended: no exception leaves `fetchRecords`, whatever the reply.  When
the load fails, `records` keeps its value and `loading` ends false; when the
server answers with a false `success`, `error` is the message of the response if
it is present and not the empty string, and the fallback `Failed to fetch records`
if the message is absent or the empty string; when the transport throws, `error`
is `Failed to connect to API server`. -/
theorem fetchRecords_failure (s : App) (r : Reply) :
    (fetchRecords r s).escapes = false ∧
    ((∀ data, r = .json data → data.success = false) →
      (fetchRecords r s).state.records = s.records ∧
      (fetchRecords r s).state.loading = false ∧
      (r = .threw → (fetchRecords r s).state.error = "Failed to connect to API server") ∧
      (∀ data m, r = .json data → data.message = some m → m ≠ "" →
        (fetchRecords r s).state.error = m) ∧
      (∀ data, r = .json data → data.message = none ∨ data.message = some "" →
        (fetchRecords r s).state.error = "Failed to fetch records")) := by
  rcases r with _ | ⟨⟨success, d, m⟩⟩
  · refine ⟨rfl, fun _ => ⟨rfl, rfl, fun _ => rfl, ?_, ?_⟩⟩
    · intro data m hr
      cases hr
    · intro data hr
      cases hr
  · constructor
    · cases success <;> rfl
    · intro hf
      have hs : success = false := hf _ rfl
      subst hs
      refine ⟨rfl, rfl, fun hr => (by cases hr), ?_, ?_⟩
      · intro data m1 hr hm hne
        cases hr
        simp only at hm
        subst hm
        simp [fetchRecords, fetchRecordsResume, tryCatch, tryFinally, Completion.state,
          setError, setLoading, messageOr, hne]
      · intro data hr hm
        cases hr
        simp only at hm
        rcases hm with hm | hm <;> subst hm <;> rfl

/-- A refresh refused with the message `not found` keeps the record listed. -/
theorem fetchRecords_failure_witness :
    (fetchRecords (.json notFound) loadedA).escapes = false ∧
    (fetchRecords (.json notFound) loadedA).state.records = [recordA] ∧
    (fetchRecords (.json notFound) loadedA).state.loading = false ∧
    (fetchRecords (.json notFound) loadedA).state.error = "not found" :=
  have h := fetchRecords_failure loadedA (.json notFound)
  have h2 := h.2 (by intro data hr; cases hr; rfl)
  ⟨h.1, h2.1, h2.2.1, h2.2.2.2.1 notFound "not found" rfl rfl (by decide)⟩

/-! ## `deleteRecord` -/

/-- C6 as stated fails for the message that is the empty string: `error` is then
the fallback `Failed to delete record`, not the message. -/
theorem deleteRecord_empty_message_gives_fallback :
    emptyMessage.success = false ∧ emptyMessage.message = some "" ∧
    (deleteRecord "a.local" true (.json emptyMessage) loadedA).state.error ≠ "" ∧
    (deleteRecord "a.local" true (.json emptyMessage) loadedA).state.error =
      "Failed to delete record" := by
  decide

/-- C6, amended: after a confirmed remove whose response has a false `success` and
a message `m`, whatever string `m` is, `records` is unchanged and no load is
triggered: the delete is the only request issued and `loading` is unchanged.
`error` is `m` verbatim when `m` is not the empty string, and the fallback
`Failed to delete record` when `m` is the empty string. -/
theorem deleteRecord_refused (domain : String) (s : App) (data : ApiBody) (m : String)
    (hs : data.success = false) (hm : data.message = some m) :
    (deleteRecord domain true (.json data) s).state.records = s.records ∧
    (deleteRecord domain true (.json data) s).state.sent = s.sent ++ [.delete domain] ∧
    (deleteRecord domain true (.json data) s).state.loading = s.loading ∧
    (deleteRecord domain true (.json data) s).state.showAddForm = s.showAddForm ∧
    (deleteRecord domain true (.json data) s).state.newRecord = s.newRecord ∧
    (deleteRecord domain true (.json data) s).escapes = false ∧
    (m ≠ "" → (deleteRecord domain true (.json data) s).state.error = m) ∧
    (m = "" →
      (deleteRecord domain true (.json data) s).state.error = "Failed to delete record") := by
  obtain ⟨success, d, m1⟩ := data
  simp only at hs hm
  subst hs
  subst hm
  refine ⟨rfl, rfl, rfl, rfl, rfl, rfl, ?_, ?_⟩
  · intro hne
    simp [deleteRecord, deleteRecordBegin, deleteRecordResume, tryCatch, Completion.state,
      setError, fetch, messageOr, hne]
  · intro he
    subst he
    rfl

/-- Deleting `a.local` when the server answers `not found`, and when it answers
with the empty message. -/
theorem deleteRecord_refused_witness :
    notFound.success = false ∧ notFound.message = some "not found" ∧
    (deleteRecord "a.local" true (.json notFound) loadedA).state.error = "not found" ∧
    (deleteRecord "a.local" true (.json notFound) loadedA).state.records = [recordA] ∧
    (deleteRecord "a.local" true (.json notFound) loadedA).state.sent =
      [.list, .delete "a.local"] ∧
    (deleteRecord "a.local" true (.json emptyMessage) loadedA).state.records = [recordA] ∧
    (deleteRecord "a.local" true (.json emptyMessage) loadedA).state.sent =
      [.list, .delete "a.local"] :=
  have h := deleteRecord_refused "a.local" loadedA notFound "not found" rfl rfl
  have h0 := deleteRecord_refused "a.local" loadedA emptyMessage "" rfl rfl
  ⟨rfl, rfl, h.2.2.2.2.2.2.1 (by decide), h.1, h.2.1, h0.1, h0.2.1⟩

/-- C7: a remove that the operator declines in the `confirm` dialog returns at
once: no request is issued and the whole state, with `records`, `loading`, `error`,
the visibility of the add form and the draft, is what it was. -/
theorem deleteRecord_declined (domain : String) (r : Reply) (s : App) :
    deleteRecordBegin domain false s = .returned s ∧
    deleteRecord domain false r s = .normal s ∧
    (deleteRecord domain false r s).state = s ∧
    (deleteRecord domain false r s).state.sent = s.sent :=
  ⟨rfl, rfl, rfl, rfl⟩

/-! ## The draft and the add form -/

/-- C8 as stated fails: after the operator opens the add form, types `x` as domain
and clicks the Cancel button of the form, the add form is closed and the draft
still holds `x`. -/
theorem draft_survives_cancel :
    run World.init typeThenCancel = some typeThenCancelEnd ∧
    typeThenCancelEnd.app.showAddForm = false ∧
    typeThenCancelEnd.app.newRecord = { domain := "x", ip := "" } ∧
    typeThenCancelEnd.app.newRecord ≠ { domain := "", ip := "" } := by
  decide

/-- C8, amended: the draft is empty in the initial state, where the add form is
closed, and a successful submit resets the draft to empty and closes the add
form; a cancel, by the toolbar toggle or by the Cancel button of the form, closes
the add form and leaves the draft as it is. -/
theorem draft_reset_by_submit_kept_by_cancel (s : App) (data : ApiBody) :
    App.init.showAddForm = false ∧
    App.init.newRecord = { domain := "", ip := "" } ∧
    (s.newRecord.domain ≠ "" → s.newRecord.ip ≠ "" → data.success = true →
      (addRecord (.json data) s).state.newRecord = { domain := "", ip := "" } ∧
      (addRecord (.json data) s).state.showAddForm = false) ∧
    (cancelAddForm s).showAddForm = false ∧
    (cancelAddForm s).newRecord = s.newRecord ∧
    (s.showAddForm = true → (toggleAddForm s).showAddForm = false) ∧
    (toggleAddForm s).newRecord = s.newRecord := by
  refine ⟨rfl, rfl, ?_, rfl, rfl, ?_, rfl⟩
  · intro hd hi hs
    obtain ⟨success, d, m⟩ := data
    simp only at hs
    subst hs
    simp [addRecord, addRecordBegin, hd, hi, addRecordResume, tryCatch, Completion.state,
      setError, fetchRecordsBegin, fetch, setLoading, setShowAddForm, setNewRecord]
  · intro hv
    simp [toggleAddForm, setShowAddForm, hv]

/-- The draft `b.local` is emptied by an accepted submit and kept by both ways
of cancelling. -/
theorem draft_reset_by_submit_kept_by_cancel_witness :
    (addRecord (.json accepted) draftB).state.newRecord = { domain := "", ip := "" } ∧
    (addRecord (.json accepted) draftB).state.showAddForm = false ∧
    (cancelAddForm draftB).showAddForm = false ∧
    (cancelAddForm draftB).newRecord = { domain := " b.local", ip := "10.0.0.2 " } ∧
    (toggleAddForm draftB).showAddForm = false ∧
    (toggleAddForm draftB).newRecord = { domain := " b.local", ip := "10.0.0.2 " } :=
  have h := draft_reset_by_submit_kept_by_cancel draftB accepted
  have h1 := h.2.2.1 (by decide) (by decide) rfl
  ⟨h1.1, h1.2, h.2.2.2.1, h.2.2.2.2.1, h.2.2.2.2.2.1 rfl, h.2.2.2.2.2.2⟩

/-! ## `addRecord`: failure -/

/-- C9 as stated fails when the server refuses the create with a message that is
the empty string: the message is present, and `error` is not that message but the
fallback. -/
theorem addRecord_empty_message_gives_fallback :
    emptyMessage.success = false ∧ emptyMessage.message = some "" ∧
    (addRecord (.json emptyMessage) draftB).state.error ≠ "" ∧
    (addRecord (.json emptyMessage) draftB).state.error = "Failed to add record" := by
  decide

/-- C9, amended: a create that passes the guard and fails, by a response with a
false `success` or by a failure of the transport, leaves the visibility of the add
form, the draft and `records` unchanged.  On a false `success`, `error` is the
message of the server if it is present and not the empty string, and the fallback
`Failed to add record` if the message is absent or the empty string; on a failure
of the transport `error` is `Failed to add record`. -/
theorem addRecord_failure (s : App) (r : Reply)
    (hd : s.newRecord.domain ≠ "") (hi : s.newRecord.ip ≠ "")
    (hf : ∀ data, r = .json data → data.success = false) :
    (addRecord r s).state.showAddForm = s.showAddForm ∧
    (addRecord r s).state.newRecord = s.newRecord ∧
    (addRecord r s).state.records = s.records ∧
    (r = .threw → (addRecord r s).state.error = "Failed to add record") ∧
    (∀ data m, r = .json data → data.message = some m → m ≠ "" →
      (addRecord r s).state.error = m) ∧
    (∀ data, r = .json data → data.message = none ∨ data.message = some "" →
      (addRecord r s).state.error = "Failed to add record") ∧
    (addRecord r s).escapes = false := by
  rcases r with _ | ⟨⟨success, d, m⟩⟩
  · simp [addRecord, addRecordBegin, hd, hi, addRecordResume, tryCatch, Completion.state,
      Completion.escapes, setError, fetch]
  · have hs : success = false := hf _ rfl
    subst hs
    refine ⟨?_, ?_, ?_, fun hr => (by cases hr), ?_, ?_, ?_⟩
    · simp [addRecord, addRecordBegin, hd, hi, addRecordResume, tryCatch, Completion.state,
        setError, fetch]
    · simp [addRecord, addRecordBegin, hd, hi, addRecordResume, tryCatch, Completion.state,
        setError, fetch]
    · simp [addRecord, addRecordBegin, hd, hi, addRecordResume, tryCatch, Completion.state,
        setError, fetch]
    · intro data m1 hr hm hne
      cases hr
      simp only at hm
      subst hm
      simp [addRecord, addRecordBegin, hd, hi, addRecordResume, tryCatch, Completion.state,
        setError, fetch, messageOr, hne]
    · intro data hr hm
      cases hr
      simp only at hm
      rcases hm with hm | hm <;> subst hm <;>
        simp [addRecord, addRecordBegin, hd, hi, addRecordResume, tryCatch, Completion.state,
          setError, fetch, messageOr]
    · simp [addRecord, addRecordBegin, hd, hi, addRecordResume, tryCatch,
        Completion.escapes]

/-- The draft `b.local` refused with the message `not found` stays in the open
form. -/
theorem addRecord_failure_witness :
    (addRecord (.json notFound) draftB).state.showAddForm = true ∧
    (addRecord (.json notFound) draftB).state.newRecord =
      { domain := " b.local", ip := "10.0.0.2 " } ∧
    (addRecord (.json notFound) draftB).state.records = [recordA] ∧
    (addRecord (.json notFound) draftB).state.error = "not found" :=
  have h := addRecord_failure draftB (.json notFound) (by decide) (by decide)
    (by intro data hr; cases hr; rfl)
  ⟨h.1, h.2.1, h.2.2.1, h.2.2.2.2.1 notFound "not found" rfl rfl (by decide)⟩

/-! ## Dismissing the error -/

/-- C10: dismissing the error sets `error` to the empty string in every state,
changes no other cell (`records`, `loading`, the visibility of the add form, the
draft) and issues no request; applied when `error` is already empty it leaves the
state unchanged, and applying it twice is the same as applying it once. -/
theorem dismissError_clears_error_only (s : App) :
    (dismissError s).error = "" ∧
    (dismissError s).records = s.records ∧
    (dismissError s).loading = s.loading ∧
    (dismissError s).showAddForm = s.showAddForm ∧
    (dismissError s).newRecord = s.newRecord ∧
    (dismissError s).sent = s.sent ∧
    (s.error = "" → dismissError s = s) ∧
    dismissError (dismissError s) = dismissError s := by
  refine ⟨rfl, rfl, rfl, rfl, rfl, rfl, ?_, rfl⟩
  intro he
  obtain ⟨records, loading, error, showAddForm, newRecord, sent⟩ := s
  simp only at he
  subst he
  rfl

/-- Dismissing the connectivity error at the end of `session`, and dismissing
when there is no error. -/
theorem dismissError_clears_error_only_witness :
    (dismissError sessionEnd.app).error = "" ∧
    (dismissError sessionEnd.app).records = [recordA] ∧
    dismissError loadedA = loadedA :=
  ⟨(dismissError_clears_error_only sessionEnd.app).1,
   (dismissError_clears_error_only sessionEnd.app).2.1,
   (dismissError_clears_error_only loadedA).2.2.2.2.2.2.1 rfl⟩

end DnsManager
